import Mathlib

/-
Verification of the Apricity ML service orchestration logic.

The development shallowly embeds the deterministic string and array
manipulation of src/ml_service/inference_pipeline.py and
src/ml_service/predict_server.py.  Text is modelled as `List Char`
(Python strings index by code point, so this is faithful), per label
probabilities as `ℚ`, and the two external neural models as function
parameters (`classify`, `gen`, `demojize`), matching the capability
interface the specification assigns to them.

Modelling notes, stated once here:
* Python `str.split()` splits on Unicode whitespace; the embedding uses
  the six ASCII whitespace characters (9-13 and 32), which is exact for
  all ASCII text.
* Python `str.lower()` is modelled on the ASCII range A-Z; other
  characters are kept unchanged.  All keyword tables of the repository
  are ASCII, so the crisis gate and the preprocessing tables behave
  identically.
* Python regular expression word characters are modelled as ASCII
  alphanumerics plus the underscore.
-/

set_option maxRecDepth 10000

namespace Apricity

/-- Build a character list from code points.  All table constants below are
given numerically so that the transcription from the Python source is exact
code point by code point. -/
def cs (l : List Nat) : List Char := l.map Char.ofNat

/-- The space character. -/
def sp : Char := Char.ofNat 32

/-- The newline character. -/
def nlc : Char := Char.ofNat 10

/-- Whitespace in the sense of Python str.split and str.strip
(tab, newline, vertical tab, form feed, carriage return, space). -/
def isPySpace (c : Char) : Bool := c.toNat == 32 || (9 ≤ c.toNat && c.toNat ≤ 13)

/-- Python str.lower, modelled on the ASCII range. -/
def lowerChar (c : Char) : Char :=
  if 65 ≤ c.toNat && c.toNat ≤ 90 then Char.ofNat (c.toNat + 32) else c

/-- Lowercase a whole string. -/
def lowerStr (s : List Char) : List Char := s.map lowerChar

/-- Executable prefix test (the Python startswith shape used below). -/
def isPre : List Char → List Char → Bool
  | [], _ => true
  | _ :: _, [] => false
  | a :: as, b :: bs => a == b && isPre as bs

/-- Executable substring test: Python `pat in s`. -/
def hasSub (pat : List Char) : List Char → Bool
  | [] => isPre pat []
  | c :: rest => isPre pat (c :: rest) || hasSub pat rest

/-- One fuelled step list for Python str.replace: replace all non
overlapping occurrences of `pat`, scanning left to right.  The fuel is the
length of the string; every step consumes at least one character of the
string when the pattern is non empty. -/
def replaceAllAux : Nat → List Char → List Char → List Char → List Char
  | 0, s, _, _ => s
  | _ + 1, [], _, _ => []
  | fuel + 1, c :: rest, pat, rep =>
    if isPre pat (c :: rest) then rep ++ replaceAllAux fuel ((c :: rest).drop pat.length) pat rep
    else c :: replaceAllAux fuel rest pat rep

/-- Python str.replace(pat, rep) for non empty `pat` (every pattern in the
repository tables is non empty). -/
def replaceAll (s pat rep : List Char) : List Char := replaceAllAux s.length s pat rep

/-- Accumulator version of Python str.split(): `cur` holds the reversed
current word. -/
def wordsAux : List Char → List Char → List (List Char)
  | [], cur => if cur.isEmpty then [] else [cur.reverse]
  | c :: rest, cur =>
    if isPySpace c then
      if cur.isEmpty then wordsAux rest [] else cur.reverse :: wordsAux rest []
    else wordsAux rest (c :: cur)

/-- Python str.split() with no argument: maximal non whitespace runs. -/
def pyWords (s : List Char) : List (List Char) := wordsAux s []

/-- Python " ".join(ws). -/
def joinSpace : List (List Char) → List Char
  | [] => []
  | [w] => w
  | w :: ws => w ++ sp :: joinSpace ws

/-- State of the specification side whitespace scanner: nothing emitted yet,
last emitted character was part of a word, or whitespace seen after a word. -/
inductive WSState
  | start
  | word
  | space

/-- Character level scanner written from the specification words: trim
leading whitespace (start state), collapse every internal whitespace run to
a single space (space state emits one separator), trim trailing whitespace
(a trailing run is never emitted). -/
def normSpecAux : List Char → WSState → List Char
  | [], _ => []
  | c :: rest, st =>
    if isPySpace c then
      match st with
      | .start => normSpecAux rest .start
      | _ => normSpecAux rest .space
    else
      match st with
      | .space => sp :: c :: normSpecAux rest .word
      | _ => c :: normSpecAux rest .word

/-- Specification side normalizer: trim leading and trailing whitespace and
collapse internal whitespace runs to single spaces.  Written from the
wording of the specification, to be compared with the split and join
implementation of clean_text. -/
def normSpec (s : List Char) : List Char := normSpecAux s .start

/-- Fixed self harm keyword lexicon.  The lists in inference_pipeline.py and
predict_server.py are identical; transcribed code point by code point. -/
def SELF_HARM_KEYWORDS : List (List Char) := [
  cs [115, 117, 105, 99, 105, 100, 101],
  cs [107, 105, 108, 108, 32, 109, 121, 115, 101, 108, 102],
  cs [101, 110, 100, 32, 109, 121, 32, 108, 105, 102, 101],
  cs [104, 97, 114, 109, 32, 109, 121, 115, 101, 108, 102],
  cs [115, 101, 108, 102, 32, 104, 97, 114, 109],
  cs [115, 101, 108, 102, 45, 104, 97, 114, 109],
  cs [111, 118, 101, 114, 100, 111, 115, 101],
  cs [110, 111, 32, 114, 101, 97, 115, 111, 110, 32, 116, 111, 32, 108, 105, 118, 101],
  cs [103, 111, 111, 100, 98, 121, 101, 32, 102, 111, 114, 101, 118, 101, 114],
  cs [119, 97, 110, 116, 32, 116, 111, 32, 100, 105, 101]]

/-- The fixed crisis banner constant, identical in both server variants;
transcribed code point by code point (it contains a warning sign emoji,
apostrophes and the 988 lifeline number). -/
def CRISIS_BANNER : List Char :=
  cs [9888, 65039, 32, 73, 102, 32, 121, 111, 117, 39, 114, 101, 32, 105, 110, 32, 105, 109, 109, 101, 100, 105, 97, 116, 101, 32, 100, 97, 110, 103, 101, 114, 32, 111, 114, 32, 116, 104, 105, 110, 107, 105, 110, 103, 32, 97, 98, 111, 117, 116, 32, 104, 97, 114, 109, 105, 110, 103, 32, 121, 111, 117, 114, 115, 101, 108, 102, 44, 32, 112, 108, 101, 97, 115, 101, 32, 99, 111, 110, 116, 97, 99, 116, 32, 108, 111, 99, 97, 108, 32, 101, 109, 101, 114, 103, 101, 110, 99, 121, 32, 115, 101, 114, 118, 105, 99, 101, 115, 32, 114, 105, 103, 104, 116, 32, 110, 111, 119, 32, 97, 110, 100, 32, 114, 101, 97, 99, 104, 32, 111, 117, 116, 32, 116, 111, 32, 115, 111, 109, 101, 111, 110, 101, 32, 121, 111, 117, 32, 116, 114, 117, 115, 116, 46, 32, 89, 111, 117, 32, 100, 101, 115, 101, 114, 118, 101, 32, 104, 101, 108, 112, 32, 97, 110, 100, 32, 121, 111, 117, 39, 114, 101, 32, 110, 111, 116, 32, 97, 108, 111, 110, 101, 46, 32, 78, 97, 116, 105, 111, 110, 97, 108, 32, 83, 117, 105, 99, 105, 100, 101, 32, 80, 114, 101, 118, 101, 110, 116, 105, 111, 110, 32, 76, 105, 102, 101, 108, 105, 110, 101, 58, 32, 57, 56, 56]

namespace InferencePipeline

/-- clean_text of inference_pipeline.py: strip whitespace, collapse internal
whitespace runs via split and join, truncate to 10000 characters.  The
initial str.strip() of the source is subsumed by str.split(), which already
ignores edge whitespace. -/
def clean_text (text : List Char) : List Char :=
  let t := joinSpace (pyWords text)
  if 10000 < t.length then t.take 10000 else t

/-- check_crisis_keywords of inference_pipeline.py: lowercase the text and
test each keyword for substring occurrence. -/
def check_crisis_keywords (text : List Char) : Bool :=
  SELF_HARM_KEYWORDS.any (fun k => hasSub k (lowerStr text))

/-- Maximum of a probability list (the value np.argmax selects). -/
def listMax : List ℚ → ℚ
  | [] => 0
  | [x] => x
  | x :: y :: xs => max x (listMax (y :: xs))

/-- np.argmax on a probability list: the first index attaining the maximum. -/
def argmaxIdx : List ℚ → Nat
  | [] => 0
  | [_] => 0
  | x :: y :: xs => if x < listMax (y :: xs) then argmaxIdx (y :: xs) + 1 else 0

/-- Step 5 and 6 of infer: the labels whose sigmoid probability is strictly
above the threshold, kept in declared label order.  This is the detected
label list before the single label fallback. -/
def detectedEmotions (labels : List (List Char)) (probs : List ℚ) (θ : ℚ) : List (List Char) :=
  ((labels.zip probs).filter (fun lp => θ < lp.2)).map Prod.fst

/-- Result record of infer (the JSON payload minus the raw tensors). -/
structure InferResult where
  top_label : List Char
  confidence : ℚ
  all_emotions : List (List Char)
  scores : List (List Char × ℚ)
deriving DecidableEq

/-- Steps 5 to 8 of infer: threshold decision, stable argmax, single label
fallback and the per label score table. -/
def inferCore (labels : List (List Char)) (probs : List ℚ) (θ : ℚ) : InferResult :=
  let detected := detectedEmotions labels probs θ
  let topIdx := argmaxIdx probs
  let top := labels.getD topIdx []
  { top_label := top
    confidence := probs.getD topIdx 0
    all_emotions := if detected.isEmpty then [top] else detected
    scores := labels.zip probs }

/-- The error taxonomy reachable in the embedded fragment: the ValueError
raised by infer on text that is empty after cleaning. -/
inductive PipelineError
  | emptyInput
deriving DecidableEq

/-- The Python exception message str(e) seen by batch_infer. -/
def errString : PipelineError → List Char
  | .emptyInput =>
    cs [69, 109, 112, 116, 121, 32, 116, 101, 120, 116, 32, 97, 102, 116, 101, 114, 32, 99, 108, 101, 97, 110, 105, 110, 103]

/-- infer of inference_pipeline.py with the classifier (tokenize, forward
pass and sigmoid) abstracted as the function `classify` from cleaned text to
the per label probability vector.  The model None check of the source is a
loading precondition represented by `classify` being available. -/
def infer (labels : List (List Char)) (classify : List Char → List ℚ) (θ : ℚ)
    (text : List Char) : Except PipelineError InferResult :=
  let cleaned := clean_text text
  if cleaned.isEmpty then .error .emptyInput
  else .ok (inferCore labels (classify cleaned) θ)

/-- Aggregate result of full_pipeline. -/
structure PipelineResult where
  input_text : List Char
  cleaned_text : List Char
  emotion_results : InferResult
  generated_response : List Char
  crisis_detected : Bool
  final_response : List Char
deriving DecidableEq

/-- full_pipeline of inference_pipeline.py with the generation model
abstracted as `gen` (text, emotions, user name to generated response).
The crisis banner is prepended to the generated response by string
interpolation exactly as in the source. -/
def full_pipeline (labels : List (List Char)) (classify : List Char → List ℚ)
    (gen : List Char → List (List Char) → Option (List Char) → List Char) (θ : ℚ)
    (text : List Char) (user_name : Option (List Char)) (include_crisis_check : Bool) :
    Except PipelineError PipelineResult :=
  let cleaned := clean_text text
  match infer labels classify θ cleaned with
  | .error e => .error e
  | .ok er =>
    let response := gen cleaned er.all_emotions user_name
    let crisis := include_crisis_check && check_crisis_keywords cleaned
    let finalResponse := if crisis then CRISIS_BANNER ++ nlc :: nlc :: response else response
    .ok { input_text := text
          cleaned_text := cleaned
          emotion_results := er
          generated_response := response
          crisis_detected := crisis
          final_response := finalResponse }

/-- One slot of the batch_infer result list: either a pipeline result or the
error record {"input_text": text, "error": str(e)}. -/
inductive BatchEntry
  | ok (result : PipelineResult)
  | err (input_text : List Char) (error : List Char)
deriving DecidableEq

/-- batch_infer of inference_pipeline.py: run full_pipeline on every text
independently, capturing a failure as an error record in that slot. -/
def batch_infer (labels : List (List Char)) (classify : List Char → List ℚ)
    (gen : List Char → List (List Char) → Option (List Char) → List Char) (θ : ℚ)
    (texts : List (List Char)) : List BatchEntry :=
  texts.map (fun t =>
    match full_pipeline labels classify gen θ t none true with
    | .ok r => .ok r
    | .error e => .err t (errString e))

end InferencePipeline


namespace PredictServer

/-- Contraction expansion table of predict_server.py, in dictionary iteration order. -/
def contraction_mapping : List (List Char × List Char) := [
  (cs [97, 105, 110, 39, 116], cs [105, 115, 32, 110, 111, 116]),
  (cs [97, 114, 101, 110, 39, 116], cs [97, 114, 101, 32, 110, 111, 116]),
  (cs [99, 97, 110, 39, 116], cs [99, 97, 110, 110, 111, 116]),
  (cs [39, 99, 97, 117, 115, 101], cs [98, 101, 99, 97, 117, 115, 101]),
  (cs [99, 111, 117, 108, 100, 39, 118, 101], cs [99, 111, 117, 108, 100, 32, 104, 97, 118, 101]),
  (cs [99, 111, 117, 108, 100, 110, 39, 116], cs [99, 111, 117, 108, 100, 32, 110, 111, 116]),
  (cs [100, 105, 100, 110, 39, 116], cs [100, 105, 100, 32, 110, 111, 116]),
  (cs [100, 111, 101, 115, 110, 39, 116], cs [100, 111, 101, 115, 32, 110, 111, 116]),
  (cs [100, 111, 110, 39, 116], cs [100, 111, 32, 110, 111, 116]),
  (cs [104, 97, 100, 110, 39, 116], cs [104, 97, 100, 32, 110, 111, 116]),
  (cs [104, 97, 115, 110, 39, 116], cs [104, 97, 115, 32, 110, 111, 116]),
  (cs [104, 97, 118, 101, 110, 39, 116], cs [104, 97, 118, 101, 32, 110, 111, 116]),
  (cs [104, 101, 39, 100], cs [104, 101, 32, 119, 111, 117, 108, 100]),
  (cs [104, 101, 39, 108, 108], cs [104, 101, 32, 119, 105, 108, 108]),
  (cs [104, 101, 39, 115], cs [104, 101, 32, 105, 115]),
  (cs [104, 111, 119, 39, 100], cs [104, 111, 119, 32, 100, 105, 100]),
  (cs [104, 111, 119, 39, 100, 39, 121], cs [104, 111, 119, 32, 100, 111, 32, 121, 111, 117]),
  (cs [104, 111, 119, 39, 108, 108], cs [104, 111, 119, 32, 119, 105, 108, 108]),
  (cs [104, 111, 119, 39, 115], cs [104, 111, 119, 32, 105, 115]),
  (cs [73, 39, 100], cs [73, 32, 119, 111, 117, 108, 100]),
  (cs [73, 39, 100, 39, 118, 101], cs [73, 32, 119, 111, 117, 108, 100, 32, 104, 97, 118, 101]),
  (cs [73, 39, 108, 108], cs [73, 32, 119, 105, 108, 108]),
  (cs [73, 39, 108, 108, 39, 118, 101], cs [73, 32, 119, 105, 108, 108, 32, 104, 97, 118, 101]),
  (cs [73, 39, 109], cs [73, 32, 97, 109]),
  (cs [73, 39, 118, 101], cs [73, 32, 104, 97, 118, 101]),
  (cs [105, 39, 100], cs [105, 32, 119, 111, 117, 108, 100]),
  (cs [105, 39, 100, 39, 118, 101], cs [105, 32, 119, 111, 117, 108, 100, 32, 104, 97, 118, 101]),
  (cs [105, 39, 108, 108], cs [105, 32, 119, 105, 108, 108]),
  (cs [105, 39, 108, 108, 39, 118, 101], cs [105, 32, 119, 105, 108, 108, 32, 104, 97, 118, 101]),
  (cs [105, 39, 109], cs [105, 32, 97, 109]),
  (cs [105, 39, 118, 101], cs [105, 32, 104, 97, 118, 101]),
  (cs [105, 115, 110, 39, 116], cs [105, 115, 32, 110, 111, 116]),
  (cs [105, 116, 39, 100], cs [105, 116, 32, 119, 111, 117, 108, 100]),
  (cs [105, 116, 39, 100, 39, 118, 101], cs [105, 116, 32, 119, 111, 117, 108, 100, 32, 104, 97, 118, 101]),
  (cs [105, 116, 39, 108, 108], cs [105, 116, 32, 119, 105, 108, 108]),
  (cs [105, 116, 39, 108, 108, 39, 118, 101], cs [105, 116, 32, 119, 105, 108, 108, 32, 104, 97, 118, 101]),
  (cs [105, 116, 39, 115], cs [105, 116, 32, 105, 115]),
  (cs [108, 101, 116, 39, 115], cs [108, 101, 116, 32, 117, 115]),
  (cs [109, 97, 39, 97, 109], cs [109, 97, 100, 97, 109]),
  (cs [109, 97, 121, 110, 39, 116], cs [109, 97, 121, 32, 110, 111, 116]),
  (cs [109, 105, 103, 104, 116, 39, 118, 101], cs [109, 105, 103, 104, 116, 32, 104, 97, 118, 101]),
  (cs [109, 105, 103, 104, 116, 110, 39, 116], cs [109, 105, 103, 104, 116, 32, 110, 111, 116]),
  (cs [109, 105, 103, 104, 116, 110, 39, 116, 39, 118, 101], cs [109, 105, 103, 104, 116, 32, 110, 111, 116, 32, 104, 97, 118, 101]),
  (cs [109, 117, 115, 116, 39, 118, 101], cs [109, 117, 115, 116, 32, 104, 97, 118, 101]),
  (cs [109, 117, 115, 116, 110, 39, 116], cs [109, 117, 115, 116, 32, 110, 111, 116]),
  (cs [109, 117, 115, 116, 110, 39, 116, 39, 118, 101], cs [109, 117, 115, 116, 32, 110, 111, 116, 32, 104, 97, 118, 101]),
  (cs [110, 101, 101, 100, 110, 39, 116], cs [110, 101, 101, 100, 32, 110, 111, 116]),
  (cs [110, 101, 101, 100, 110, 39, 116, 39, 118, 101], cs [110, 101, 101, 100, 32, 110, 111, 116, 32, 104, 97, 118, 101]),
  (cs [111, 39, 99, 108, 111, 99, 107], cs [111, 102, 32, 116, 104, 101, 32, 99, 108, 111, 99, 107]),
  (cs [111, 117, 103, 104, 116, 110, 39, 116], cs [111, 117, 103, 104, 116, 32, 110, 111, 116]),
  (cs [111, 117, 103, 104, 116, 110, 39, 116, 39, 118, 101], cs [111, 117, 103, 104, 116, 32, 110, 111, 116, 32, 104, 97, 118, 101]),
  (cs [115, 104, 97, 110, 39, 116], cs [115, 104, 97, 108, 108, 32, 110, 111, 116]),
  (cs [115, 104, 97, 39, 110, 39, 116], cs [115, 104, 97, 108, 108, 32, 110, 111, 116]),
  (cs [115, 104, 97, 110, 39, 116, 39, 118, 101], cs [115, 104, 97, 108, 108, 32, 110, 111, 116, 32, 104, 97, 118, 101]),
  (cs [115, 104, 101, 39, 100], cs [115, 104, 101, 32, 119, 111, 117, 108, 100]),
  (cs [115, 104, 101, 39, 100, 39, 118, 101], cs [115, 104, 101, 32, 119, 111, 117, 108, 100, 32, 104, 97, 118, 101]),
  (cs [115, 104, 101, 39, 108, 108], cs [115, 104, 101, 32, 119, 105, 108, 108]),
  (cs [115, 104, 101, 39, 108, 108, 39, 118, 101], cs [115, 104, 101, 32, 119, 105, 108, 108, 32, 104, 97, 118, 101]),
  (cs [115, 104, 101, 39, 115], cs [115, 104, 101, 32, 105, 115]),
  (cs [115, 104, 111, 117, 108, 100, 39, 118, 101], cs [115, 104, 111, 117, 108, 100, 32, 104, 97, 118, 101]),
  (cs [115, 104, 111, 117, 108, 100, 110, 39, 116], cs [115, 104, 111, 117, 108, 100, 32, 110, 111, 116]),
  (cs [115, 104, 111, 117, 108, 100, 110, 39, 116, 39, 118, 101], cs [115, 104, 111, 117, 108, 100, 32, 110, 111, 116, 32, 104, 97, 118, 101]),
  (cs [115, 111, 39, 118, 101], cs [115, 111, 32, 104, 97, 118, 101]),
  (cs [115, 111, 39, 115], cs [115, 111, 32, 97, 115]),
  (cs [116, 104, 105, 115, 39, 115], cs [116, 104, 105, 115, 32, 105, 115]),
  (cs [116, 104, 97, 116, 39, 100], cs [116, 104, 97, 116, 32, 119, 111, 117, 108, 100]),
  (cs [116, 104, 97, 116, 39, 100, 39, 118, 101], cs [116, 104, 97, 116, 32, 119, 111, 117, 108, 100, 32, 104, 97, 118, 101]),
  (cs [116, 104, 97, 116, 39, 115], cs [116, 104, 97, 116, 32, 105, 115]),
  (cs [116, 104, 101, 114, 101, 39, 100], cs [116, 104, 101, 114, 101, 32, 119, 111, 117, 108, 100]),
  (cs [116, 104, 101, 114, 101, 39, 100, 39, 118, 101], cs [116, 104, 101, 114, 101, 32, 119, 111, 117, 108, 100, 32, 104, 97, 118, 101]),
  (cs [116, 104, 101, 114, 101, 39, 115], cs [116, 104, 101, 114, 101, 32, 105, 115]),
  (cs [104, 101, 114, 101, 39, 115], cs [104, 101, 114, 101, 32, 105, 115]),
  (cs [116, 104, 101, 121, 39, 100], cs [116, 104, 101, 121, 32, 119, 111, 117, 108, 100]),
  (cs [116, 104, 101, 121, 39, 100, 39, 118, 101], cs [116, 104, 101, 121, 32, 119, 111, 117, 108, 100, 32, 104, 97, 118, 101]),
  (cs [116, 104, 101, 121, 39, 108, 108], cs [116, 104, 101, 121, 32, 119, 105, 108, 108]),
  (cs [116, 104, 101, 121, 39, 108, 108, 39, 118, 101], cs [116, 104, 101, 121, 32, 119, 105, 108, 108, 32, 104, 97, 118, 101]),
  (cs [116, 104, 101, 121, 39, 114, 101], cs [116, 104, 101, 121, 32, 97, 114, 101]),
  (cs [116, 104, 101, 121, 39, 118, 101], cs [116, 104, 101, 121, 32, 104, 97, 118, 101]),
  (cs [116, 111, 39, 118, 101], cs [116, 111, 32, 104, 97, 118, 101]),
  (cs [119, 97, 115, 110, 39, 116], cs [119, 97, 115, 32, 110, 111, 116]),
  (cs [119, 101, 39, 100], cs [119, 101, 32, 119, 111, 117, 108, 100]),
  (cs [119, 101, 39, 100, 39, 118, 101], cs [119, 101, 32, 119, 111, 117, 108, 100, 32, 104, 97, 118, 101]),
  (cs [119, 101, 39, 108, 108], cs [119, 101, 32, 119, 105, 108, 108]),
  (cs [119, 101, 39, 108, 108, 39, 118, 101], cs [119, 101, 32, 119, 105, 108, 108, 32, 104, 97, 118, 101]),
  (cs [119, 101, 39, 114, 101], cs [119, 101, 32, 97, 114, 101]),
  (cs [119, 101, 39, 118, 101], cs [119, 101, 32, 104, 97, 118, 101]),
  (cs [119, 101, 114, 101, 110, 39, 116], cs [119, 101, 114, 101, 32, 110, 111, 116]),
  (cs [119, 104, 97, 116, 39, 108, 108], cs [119, 104, 97, 116, 32, 119, 105, 108, 108]),
  (cs [119, 104, 97, 116, 39, 108, 108, 39, 118, 101], cs [119, 104, 97, 116, 32, 119, 105, 108, 108, 32, 104, 97, 118, 101]),
  (cs [119, 104, 97, 116, 39, 114, 101], cs [119, 104, 97, 116, 32, 97, 114, 101]),
  (cs [119, 104, 97, 116, 39, 115], cs [119, 104, 97, 116, 32, 105, 115]),
  (cs [119, 104, 97, 116, 39, 118, 101], cs [119, 104, 97, 116, 32, 104, 97, 118, 101]),
  (cs [119, 104, 101, 110, 39, 115], cs [119, 104, 101, 110, 32, 105, 115]),
  (cs [119, 104, 101, 110, 39, 118, 101], cs [119, 104, 101, 110, 32, 104, 97, 118, 101]),
  (cs [119, 104, 101, 114, 101, 39, 100], cs [119, 104, 101, 114, 101, 32, 100, 105, 100]),
  (cs [119, 104, 101, 114, 101, 39, 115], cs [119, 104, 101, 114, 101, 32, 105, 115]),
  (cs [119, 104, 101, 114, 101, 39, 118, 101], cs [119, 104, 101, 114, 101, 32, 104, 97, 118, 101]),
  (cs [119, 104, 111, 39, 108, 108], cs [119, 104, 111, 32, 119, 105, 108, 108]),
  (cs [119, 104, 111, 39, 108, 108, 39, 118, 101], cs [119, 104, 111, 32, 119, 105, 108, 108, 32, 104, 97, 118, 101]),
  (cs [119, 104, 111, 39, 115], cs [119, 104, 111, 32, 105, 115]),
  (cs [119, 104, 111, 39, 118, 101], cs [119, 104, 111, 32, 104, 97, 118, 101]),
  (cs [119, 104, 121, 39, 115], cs [119, 104, 121, 32, 105, 115]),
  (cs [119, 104, 121, 39, 118, 101], cs [119, 104, 121, 32, 104, 97, 118, 101]),
  (cs [119, 105, 108, 108, 39, 118, 101], cs [119, 105, 108, 108, 32, 104, 97, 118, 101]),
  (cs [119, 111, 110, 39, 116], cs [119, 105, 108, 108, 32, 110, 111, 116]),
  (cs [119, 111, 110, 39, 116, 39, 118, 101], cs [119, 105, 108, 108, 32, 110, 111, 116, 32, 104, 97, 118, 101]),
  (cs [119, 111, 117, 108, 100, 39, 118, 101], cs [119, 111, 117, 108, 100, 32, 104, 97, 118, 101]),
  (cs [119, 111, 117, 108, 100, 110, 39, 116], cs [119, 111, 117, 108, 100, 32, 110, 111, 116]),
  (cs [119, 111, 117, 108, 100, 110, 39, 116, 39, 118, 101], cs [119, 111, 117, 108, 100, 32, 110, 111, 116, 32, 104, 97, 118, 101]),
  (cs [121, 39, 97, 108, 108], cs [121, 111, 117, 32, 97, 108, 108]),
  (cs [121, 39, 97, 108, 108, 39, 100], cs [121, 111, 117, 32, 97, 108, 108, 32, 119, 111, 117, 108, 100]),
  (cs [121, 39, 97, 108, 108, 39, 100, 39, 118, 101], cs [121, 111, 117, 32, 97, 108, 108, 32, 119, 111, 117, 108, 100, 32, 104, 97, 118, 101]),
  (cs [121, 39, 97, 108, 108, 39, 114, 101], cs [121, 111, 117, 32, 97, 108, 108, 32, 97, 114, 101]),
  (cs [121, 39, 97, 108, 108, 39, 118, 101], cs [121, 111, 117, 32, 97, 108, 108, 32, 104, 97, 118, 101]),
  (cs [121, 111, 117, 39, 100], cs [121, 111, 117, 32, 119, 111, 117, 108, 100]),
  (cs [121, 111, 117, 39, 100, 39, 118, 101], cs [121, 111, 117, 32, 119, 111, 117, 108, 100, 32, 104, 97, 118, 101]),
  (cs [121, 111, 117, 39, 108, 108], cs [121, 111, 117, 32, 119, 105, 108, 108]),
  (cs [121, 111, 117, 39, 108, 108, 39, 118, 101], cs [121, 111, 117, 32, 119, 105, 108, 108, 32, 104, 97, 118, 101]),
  (cs [121, 111, 117, 39, 114, 101], cs [121, 111, 117, 32, 97, 114, 101]),
  (cs [121, 111, 117, 39, 118, 101], cs [121, 111, 117, 32, 104, 97, 118, 101]),
  (cs [117, 46, 115], cs [97, 109, 101, 114, 105, 99, 97]),
  (cs [101, 46, 103], cs [102, 111, 114, 32, 101, 120, 97, 109, 112, 108, 101])]

/-- Punctuation list of predict_server.py. One element is a long string: in the source a stray triple quote on the fourth line of the list turns sixty six characters into a single element. -/
def punct : List (List Char) := [
  cs [44],
  cs [46],
  cs [34],
  cs [58],
  cs [41],
  cs [40],
  cs [45],
  cs [33],
  cs [63],
  cs [124],
  cs [59],
  cs [39],
  cs [36],
  cs [38],
  cs [47],
  cs [91],
  cs [93],
  cs [62],
  cs [37],
  cs [61],
  cs [35],
  cs [42],
  cs [43],
  cs [92],
  cs [8226],
  cs [126],
  cs [64],
  cs [163],
  cs [183],
  cs [95],
  cs [123],
  cs [125],
  cs [169],
  cs [94],
  cs [174],
  cs [96],
  cs [60],
  cs [8594],
  cs [176],
  cs [8364],
  cs [8482],
  cs [8250],
  cs [9829],
  cs [8592],
  cs [215],
  cs [167],
  cs [8243],
  cs [8242],
  cs [194],
  cs [9608],
  cs [189],
  cs [224],
  cs [8230],
  cs [34],
  cs [9733],
  cs [34],
  cs [8211],
  cs [9679],
  cs [226],
  cs [9658],
  cs [8722],
  cs [162],
  cs [178],
  cs [172],
  cs [9617],
  cs [182],
  cs [8593],
  cs [177],
  cs [191],
  cs [9662],
  cs [9552],
  cs [166],
  cs [9553],
  cs [8213],
  cs [165],
  cs [9619],
  cs [8212],
  cs [8249],
  cs [9472],
  cs [9618],
  cs [65306],
  cs [188],
  cs [8853],
  cs [9660],
  cs [9642],
  cs [8224],
  cs [9632],
  cs [44, 32, 39, 9600, 39, 44, 32, 39, 168, 39, 44, 32, 39, 9604, 39, 44, 32, 39, 9835, 39, 44, 32, 39, 9734, 39, 44, 32, 39, 233, 39, 44, 32, 39, 175, 39, 44, 32, 39, 9830, 39, 44, 32, 39, 164, 39, 44, 32, 39, 9650, 39, 44, 32, 39, 232, 39, 44, 32, 39, 184, 39, 44, 32, 39, 190, 39, 44, 32, 39, 195, 39, 44, 32, 39, 8901, 39, 44, 32],
  cs [8734],
  cs [8729],
  cs [65289],
  cs [8595],
  cs [12289],
  cs [9474],
  cs [65288],
  cs [187],
  cs [65292],
  cs [9834],
  cs [9577],
  cs [9562],
  cs [179],
  cs [12539],
  cs [9574],
  cs [9571],
  cs [9556],
  cs [9559],
  cs [9644],
  cs [10084],
  cs [239],
  cs [216],
  cs [185],
  cs [8804],
  cs [8225],
  cs [8730]]

/-- Special character mapping of predict_server.py, in dictionary iteration order. -/
def punct_mapping : List (List Char × List Char) := [
  (cs [39], cs [39]),
  (cs [8377], cs [101]),
  (cs [180], cs [39]),
  (cs [176], cs []),
  (cs [8364], cs [101]),
  (cs [8482], cs [116, 109]),
  (cs [8730], cs [32, 115, 113, 114, 116, 32]),
  (cs [215], cs [120]),
  (cs [178], cs [50]),
  (cs [8212], cs [45]),
  (cs [8211], cs [45]),
  (cs [95], cs [45]),
  (cs [96], cs [39]),
  (cs [34], cs [34]),
  (cs [163], cs [101]),
  (cs [8734], cs [105, 110, 102, 105, 110, 105, 116, 121]),
  (cs [952], cs [116, 104, 101, 116, 97]),
  (cs [247], cs [47]),
  (cs [945], cs [97, 108, 112, 104, 97]),
  (cs [8226], cs [46]),
  (cs [224], cs [97]),
  (cs [8722], cs [45]),
  (cs [946], cs [98, 101, 116, 97]),
  (cs [8709], cs []),
  (cs [179], cs [51]),
  (cs [960], cs [112, 105]),
  (cs [33], cs [32])]

/-- Spelling correction table of predict_server.py, in dictionary iteration order. -/
def mispell_dict : List (List Char × List Char) := [
  (cs [99, 111, 108, 111, 117, 114], cs [99, 111, 108, 111, 114]),
  (cs [99, 101, 110, 116, 114, 101], cs [99, 101, 110, 116, 101, 114]),
  (cs [102, 97, 118, 111, 117, 114, 105, 116, 101], cs [102, 97, 118, 111, 114, 105, 116, 101]),
  (cs [116, 114, 97, 118, 101, 108, 108, 105, 110, 103], cs [116, 114, 97, 118, 101, 108, 105, 110, 103]),
  (cs [99, 111, 117, 110, 115, 101, 108, 108, 105, 110, 103], cs [99, 111, 117, 110, 115, 101, 108, 105, 110, 103]),
  (cs [116, 104, 101, 97, 116, 114, 101], cs [116, 104, 101, 97, 116, 101, 114]),
  (cs [99, 97, 110, 99, 101, 108, 108, 101, 100], cs [99, 97, 110, 99, 101, 108, 101, 100]),
  (cs [108, 97, 98, 111, 117, 114], cs [108, 97, 98, 111, 114]),
  (cs [111, 114, 103, 97, 110, 105, 115, 97, 116, 105, 111, 110], cs [111, 114, 103, 97, 110, 105, 122, 97, 116, 105, 111, 110]),
  (cs [119, 119, 105, 105], cs [119, 111, 114, 108, 100, 32, 119, 97, 114, 32, 50]),
  (cs [99, 105, 116, 105, 99, 105, 115, 101], cs [99, 114, 105, 116, 105, 99, 105, 122, 101]),
  (cs [121, 111, 117, 116, 117, 32], cs [121, 111, 117, 116, 117, 98, 101, 32]),
  (cs [81, 111, 117, 114, 97], cs [81, 117, 111, 114, 97]),
  (cs [115, 97, 108, 108, 97, 114, 121], cs [115, 97, 108, 97, 114, 121]),
  (cs [87, 104, 116, 97], cs [87, 104, 97, 116]),
  (cs [110, 97, 114, 99, 105, 115, 105, 115, 116], cs [110, 97, 114, 99, 105, 115, 115, 105, 115, 116]),
  (cs [104, 111, 119, 100, 111], cs [104, 111, 119, 32, 100, 111]),
  (cs [119, 104, 97, 116, 97, 114, 101], cs [119, 104, 97, 116, 32, 97, 114, 101]),
  (cs [104, 111, 119, 99, 97, 110], cs [104, 111, 119, 32, 99, 97, 110]),
  (cs [104, 111, 119, 109, 117, 99, 104], cs [104, 111, 119, 32, 109, 117, 99, 104]),
  (cs [104, 111, 119, 109, 97, 110, 121], cs [104, 111, 119, 32, 109, 97, 110, 121]),
  (cs [119, 104, 121, 100, 111], cs [119, 104, 121, 32, 100, 111]),
  (cs [100, 111, 73], cs [100, 111, 32, 73]),
  (cs [116, 104, 101, 66, 101, 115, 116], cs [116, 104, 101, 32, 98, 101, 115, 116]),
  (cs [104, 111, 119, 100, 111, 101, 115], cs [104, 111, 119, 32, 100, 111, 101, 115]),
  (cs [109, 97, 115, 116, 114, 117, 98, 97, 116, 105, 111, 110], cs [109, 97, 115, 116, 117, 114, 98, 97, 116, 105, 111, 110]),
  (cs [109, 97, 115, 116, 114, 117, 98, 97, 116, 101], cs [109, 97, 115, 116, 117, 114, 98, 97, 116, 101]),
  (cs [109, 97, 115, 116, 114, 117, 98, 97, 116, 105, 110, 103], cs [109, 97, 115, 116, 117, 114, 98, 97, 116, 105, 110, 103]),
  (cs [112, 101, 110, 110, 105, 115], cs [112, 101, 110, 105, 115]),
  (cs [69, 116, 104, 101, 114, 105, 117, 109], cs [69, 116, 104, 101, 114, 101, 117, 109]),
  (cs [110, 97, 114, 99, 105, 115, 115, 105, 116], cs [110, 97, 114, 99, 105, 115, 115, 105, 115, 116]),
  (cs [98, 105, 103, 100, 97, 116, 97], cs [98, 105, 103, 32, 100, 97, 116, 97]),
  (cs [50, 107, 49, 55], cs [50, 48, 49, 55]),
  (cs [50, 107, 49, 56], cs [50, 48, 49, 56]),
  (cs [113, 111, 117, 116, 97], cs [113, 117, 111, 116, 97]),
  (cs [101, 120, 98, 111, 121, 102, 114, 105, 101, 110, 100], cs [101, 120, 32, 98, 111, 121, 102, 114, 105, 101, 110, 100]),
  (cs [97, 105, 114, 104, 111, 115, 116, 101, 115, 115], cs [97, 105, 114, 32, 104, 111, 115, 116, 101, 115, 115]),
  (cs [119, 104, 115, 116], cs [119, 104, 97, 116]),
  (cs [119, 97, 116, 115, 97, 112, 112], cs [119, 104, 97, 116, 115, 97, 112, 112]),
  (cs [100, 101, 109, 111, 110, 105, 116, 105, 115, 97, 116, 105, 111, 110], cs [100, 101, 109, 111, 110, 101, 116, 105, 122, 97, 116, 105, 111, 110]),
  (cs [100, 101, 109, 111, 110, 105, 116, 105, 122, 97, 116, 105, 111, 110], cs [100, 101, 109, 111, 110, 101, 116, 105, 122, 97, 116, 105, 111, 110]),
  (cs [100, 101, 109, 111, 110, 101, 116, 105, 115, 97, 116, 105, 111, 110], cs [100, 101, 109, 111, 110, 101, 116, 105, 122, 97, 116, 105, 111, 110])]

/-- Apostrophe like characters normalized by clean_contractions. -/
def contraction_specials : List Char := [Char.ofNat 39, Char.ofNat 39, Char.ofNat 180, Char.ofNat 96]

/-- Extra substitutions applied at the end of clean_special_chars, in dictionary order. -/
def special_subs : List (List Char × List Char) := [
  (cs [8203], cs [32]),
  (cs [8230], cs [32, 46, 46, 46, 32]),
  (cs [65279], cs []),
  (cs [2325, 2352, 2344, 2366], cs []),
  (cs [2361, 2376], cs [])]

/-- The ASCII punctuation class stripped by the clean_text regex of predict_server.py. -/
def ascii_punct_class : List Char := [Char.ofNat 33, Char.ofNat 34, Char.ofNat 35, Char.ofNat 36, Char.ofNat 37, Char.ofNat 38, Char.ofNat 39, Char.ofNat 40, Char.ofNat 41, Char.ofNat 42, Char.ofNat 43, Char.ofNat 44, Char.ofNat 45, Char.ofNat 46, Char.ofNat 47, Char.ofNat 58, Char.ofNat 59, Char.ofNat 60, Char.ofNat 61, Char.ofNat 62, Char.ofNat 63, Char.ofNat 64, Char.ofNat 91, Char.ofNat 92, Char.ofNat 93, Char.ofNat 94, Char.ofNat 95, Char.ofNat 96, Char.ofNat 123, Char.ofNat 124, Char.ofNat 125, Char.ofNat 126]

/-- Fixed self harm keyword lexicon shared by both server variants. -/
def SELF_HARM_KEYWORDS : List (List Char) := [
  cs [115, 117, 105, 99, 105, 100, 101],
  cs [107, 105, 108, 108, 32, 109, 121, 115, 101, 108, 102],
  cs [101, 110, 100, 32, 109, 121, 32, 108, 105, 102, 101],
  cs [104, 97, 114, 109, 32, 109, 121, 115, 101, 108, 102],
  cs [115, 101, 108, 102, 32, 104, 97, 114, 109],
  cs [115, 101, 108, 102, 45, 104, 97, 114, 109],
  cs [111, 118, 101, 114, 100, 111, 115, 101],
  cs [110, 111, 32, 114, 101, 97, 115, 111, 110, 32, 116, 111, 32, 108, 105, 118, 101],
  cs [103, 111, 111, 100, 98, 121, 101, 32, 102, 111, 114, 101, 118, 101, 114],
  cs [119, 97, 110, 116, 32, 116, 111, 32, 100, 105, 101]]

/-- The fixed crisis banner constant. -/
def CRISIS_BANNER : List Char :=
  cs [9888, 65039, 32, 73, 102, 32, 121, 111, 117, 39, 114, 101, 32, 105, 110, 32, 105, 109, 109, 101, 100, 105, 97, 116, 101, 32, 100, 97, 110, 103, 101, 114, 32, 111, 114, 32, 116, 104, 105, 110, 107, 105, 110, 103, 32, 97, 98, 111, 117, 116, 32, 104, 97, 114, 109, 105, 110, 103, 32, 121, 111, 117, 114, 115, 101, 108, 102, 44, 32, 112, 108, 101, 97, 115, 101, 32, 99, 111, 110, 116, 97, 99, 116, 32, 108, 111, 99, 97, 108, 32, 101, 109, 101, 114, 103, 101, 110, 99, 121, 32, 115, 101, 114, 118, 105, 99, 101, 115, 32, 114, 105, 103, 104, 116, 32, 110, 111, 119, 32, 97, 110, 100, 32, 114, 101, 97, 99, 104, 32, 111, 117, 116, 32, 116, 111, 32, 115, 111, 109, 101, 111, 110, 101, 32, 121, 111, 117, 32, 116, 114, 117, 115, 116, 46, 32, 89, 111, 117, 32, 100, 101, 115, 101, 114, 118, 101, 32, 104, 101, 108, 112, 32, 97, 110, 100, 32, 121, 111, 117, 39, 114, 101, 32, 110, 111, 116, 32, 97, 108, 111, 110, 101, 46, 32, 78, 97, 116, 105, 111, 110, 97, 108, 32, 83, 117, 105, 99, 105, 100, 101, 32, 80, 114, 101, 118, 101, 110, 116, 105, 111, 110, 32, 76, 105, 102, 101, 108, 105, 110, 101, 58, 32, 57, 56, 56]

/-- Regex helper: scan for the first occurrence of `target` that appears
before any newline and return the suffix after it.  This models the non
greedy dot of the Python regexes, which does not match a newline. -/
def findBeforeNewline (target : Char) : List Char → Option (List Char)
  | [] => none
  | c :: rest =>
    if c == target then some rest
    else if c == nlc then none
    else findBeforeNewline target rest

/-- Fuelled scanner for re.sub of a non greedy pair pattern such as
colon dot star colon or bracketed text: at every opening character, remove
up to the nearest closing character on the same line, otherwise advance one
character.  The fuel is the string length; every step consumes at least one
character. -/
def removeEnclosedAux (openc closec : Char) : Nat → List Char → List Char
  | 0, s => s
  | _ + 1, [] => []
  | fuel + 1, c :: rest =>
    if c == openc then
      match findBeforeNewline closec rest with
      | some post => removeEnclosedAux openc closec fuel post
      | none => c :: removeEnclosedAux openc closec fuel rest
    else c :: removeEnclosedAux openc closec fuel rest

/-- re.sub removal of a delimited non greedy pair pattern. -/
def removeEnclosed (openc closec : Char) (s : List Char) : List Char :=
  removeEnclosedAux openc closec s.length s

/-- Greedy non whitespace run, as matched by backslash S plus. -/
def dropNonSpace (s : List Char) : List Char := s.dropWhile (fun c => !(isPySpace c))

/-- Try the URL alternation of clean_text at the current position: an http
or https scheme or a www. prefix followed by at least one non whitespace
character; return the suffix after the greedy match. -/
def tryUrl (s : List Char) : Option (List Char) :=
  if isPre (cs [104, 116, 116, 112, 115, 58, 47, 47]) s then
    match s.drop 8 with
    | [] => none
    | c :: rest => if isPySpace c then none else some (dropNonSpace (c :: rest))
  else if isPre (cs [104, 116, 116, 112, 58, 47, 47]) s then
    match s.drop 7 with
    | [] => none
    | c :: rest => if isPySpace c then none else some (dropNonSpace (c :: rest))
  else if isPre (cs [119, 119, 119, 46]) s then
    match s.drop 4 with
    | [] => none
    | c :: rest => if isPySpace c then none else some (dropNonSpace (c :: rest))
  else none

/-- Fuelled left to right scan applying the URL removal. -/
def removeUrlsAux : Nat → List Char → List Char
  | 0, s => s
  | _ + 1, [] => []
  | fuel + 1, c :: rest =>
    match tryUrl (c :: rest) with
    | some post => removeUrlsAux fuel post
    | none => c :: removeUrlsAux fuel rest

/-- re.sub removal of URLs. -/
def removeUrls (s : List Char) : List Char := removeUrlsAux s.length s

/-- Try the HTML tag pattern at the current position: an opening angle
bracket, minimal text up to a closing angle bracket on the same line, then
the greedy run of further closing angle brackets. -/
def tryTag : List Char → Option (List Char)
  | [] => none
  | c :: rest =>
    if c == Char.ofNat 60 then
      match findBeforeNewline (Char.ofNat 62) rest with
      | some after1 => some (after1.dropWhile (fun d => d == Char.ofNat 62))
      | none => none
    else none

/-- Fuelled left to right scan applying the tag removal. -/
def removeTagsAux : Nat → List Char → List Char
  | 0, s => s
  | _ + 1, [] => []
  | fuel + 1, c :: rest =>
    match tryTag (c :: rest) with
    | some post => removeTagsAux fuel post
    | none => c :: removeTagsAux fuel rest

/-- re.sub removal of HTML tags. -/
def removeTags (s : List Char) : List Char := removeTagsAux s.length s

/-- Python regex word character, on the ASCII range. -/
def isWordChar (c : Char) : Bool :=
  (48 ≤ c.toNat && c.toNat ≤ 57) || (97 ≤ c.toNat && c.toNat ≤ 122) ||
    (65 ≤ c.toNat && c.toNat ≤ 90) || c.toNat == 95

/-- ASCII digit. -/
def isDigitChar (c : Char) : Bool := 48 ≤ c.toNat && c.toNat ≤ 57

/-- Fuelled scanner for the word digit regex of clean_text: every maximal
word character run containing a digit is removed whole. -/
def removeDigitWordsAux : Nat → List Char → List Char
  | 0, s => s
  | _ + 1, [] => []
  | fuel + 1, c :: rest =>
    if isWordChar c then
      let run := (c :: rest).takeWhile isWordChar
      let post := (c :: rest).dropWhile isWordChar
      if run.any isDigitChar then removeDigitWordsAux fuel post
      else run ++ removeDigitWordsAux fuel post
    else c :: removeDigitWordsAux fuel rest

/-- re.sub removal of word character runs containing a digit. -/
def removeDigitWords (s : List Char) : List Char := removeDigitWordsAux s.length s

/-- clean_text of predict_server.py: emoji demojization (the external emoji
package, passed as the function `demojize`), removal of colon delimited
emoji names, lowercasing, removal of bracketed fragments, URLs and HTML
tags, removal of the ASCII punctuation class, of newlines and of word runs
containing digits, in exactly the source order. -/
def clean_text (demojize : List Char → List Char) (text : List Char) : List Char :=
  let t := demojize text
  let t := removeEnclosed (Char.ofNat 58) (Char.ofNat 58) t
  let t := lowerStr t
  let t := removeEnclosed (Char.ofNat 91) (Char.ofNat 93) t
  let t := removeUrls t
  let t := removeTags t
  let t := t.filter (fun c => !(ascii_punct_class.contains c))
  let t := t.filter (fun c => !(c == nlc))
  removeDigitWords t

/-- clean_contractions of predict_server.py: normalize apostrophe variants,
then expand every space delimited contraction key present in the text, in
table order. -/
def clean_contractions (text : List Char) : List Char :=
  let t := contraction_specials.foldl (fun t s => replaceAll t [s] [Char.ofNat 39]) text
  contraction_mapping.foldl
    (fun t kv =>
      if hasSub (sp :: kv.1 ++ [sp]) t then
        replaceAll t (sp :: kv.1 ++ [sp]) (sp :: kv.2 ++ [sp])
      else t) t

/-- clean_special_chars of predict_server.py: apply the special character
mapping, surround every remaining listed punctuation string with spaces,
then apply the closing substitutions, in table order. -/
def clean_special_chars (text : List Char) : List Char :=
  let t := punct_mapping.foldl (fun t kv => replaceAll t kv.1 kv.2) text
  let t := punct.foldl (fun t p => replaceAll t p (sp :: p ++ [sp])) t
  special_subs.foldl (fun t kv => replaceAll t kv.1 kv.2) t

/-- correct_spelling of predict_server.py: plain substring replacement of
every table key, in table order. -/
def correct_spelling (text : List Char) : List Char :=
  mispell_dict.foldl (fun t kv => replaceAll t kv.1 kv.2) text

/-- remove_space of predict_server.py: strip and collapse whitespace via
split and join. -/
def remove_space (text : List Char) : List Char := joinSpace (pyWords text)

/-- text_preprocessing_pipeline of predict_server.py, in the source stage
order: cleaning, contraction expansion, special character mapping, spelling
correction, whitespace collapse. -/
def text_preprocessing_pipeline (demojize : List Char → List Char) (text : List Char) :
    List Char :=
  let t := clean_text demojize text
  let t := clean_contractions t
  let t := clean_special_chars t
  let t := correct_spelling t
  remove_space t

/-- The five stage composition in the order stated by the specification
sentence for the preprocessing pipeline: cleaning, then punctuation and
special character mapping, then contraction expansion, then spelling
correction, then whitespace collapse.  Written from the words of the
specification, to be compared with `text_preprocessing_pipeline`. -/
def claimedOrderPipeline (demojize : List Char → List Char) (text : List Char) : List Char :=
  remove_space (correct_spelling (clean_contractions (clean_special_chars (clean_text demojize text))))

end PredictServer

/-! ### Supporting lemmas: executable string tests against their Mathlib propositions -/

theorem isPre_iff (p s : List Char) : isPre p s = true ↔ p <+: s := by
  induction p generalizing s with
  | nil => simp [isPre]
  | cons a as ih =>
    cases s with
    | nil => simp [isPre]
    | cons b bs => simp [isPre, ih, List.cons_prefix_cons]

theorem hasSub_iff (p s : List Char) : hasSub p s = true ↔ p <:+: s := by
  induction s with
  | nil => simp [hasSub, isPre_iff]
  | cons c rest ih => simp [hasSub, isPre_iff, ih, List.infix_cons_iff]

/-! ### C4: the crisis gate -/

/-- C4: the crisis gate returns true if and only if at least one phrase of
the fixed self harm lexicon occurs as a substring of the input compared
case insensitively; in particular it accepts the phrase I want to die and
rejects the sentence I had a great day. -/
theorem C4_crisis_gate :
    (∀ text, InferencePipeline.check_crisis_keywords text = true ↔
      ∃ k ∈ SELF_HARM_KEYWORDS, lowerStr k <:+: lowerStr text) ∧
    InferencePipeline.check_crisis_keywords
      (cs [73, 32, 119, 97, 110, 116, 32, 116, 111, 32, 100, 105, 101]) = true ∧
    InferencePipeline.check_crisis_keywords
      (cs [73, 32, 104, 97, 100, 32, 97, 32, 103, 114, 101, 97, 116, 32, 100, 97, 121]) = false := by
  refine ⟨fun text => ?_, by decide, by decide⟩
  have hlow : ∀ k ∈ SELF_HARM_KEYWORDS, lowerStr k = k := by decide
  constructor
  · intro h
    obtain ⟨k, hk, hsub⟩ :
        ∃ k ∈ SELF_HARM_KEYWORDS, hasSub k (lowerStr text) = true := by
      simpa [InferencePipeline.check_crisis_keywords, List.any_eq_true] using h
    exact ⟨k, hk, by rw [hlow k hk]; exact (hasSub_iff _ _).mp hsub⟩
  · rintro ⟨k, hk, hsub⟩
    rw [hlow k hk] at hsub
    simp only [InferencePipeline.check_crisis_keywords, List.any_eq_true]
    exact ⟨k, hk, (hasSub_iff _ _).mpr hsub⟩

/-! ### C2: the threshold rule of the detected label list -/

/-- C2 counterexample: at the boundary score equal to threshold the claimed
inclusive rule fails on the code, which uses a strict comparison.  With a
single label whose score equals the threshold, the score is at least the
threshold yet the label is not in the detected list. -/
theorem C2_boundary_counterexample :
    ¬ (cs [106, 111, 121] ∈ InferencePipeline.detectedEmotions
        [cs [106, 111, 121]] [(1 : ℚ)] 1 ↔ (1 : ℚ) ≥ 1) := by
  norm_num [InferencePipeline.detectedEmotions]

/-- C2 amended: a label is in the detected label list (before the fallback)
if and only if its score is strictly greater than the threshold, and the
list is ordered by declared label order (it is a sublist of the label
list), not by score. -/
theorem C2_detected_labels_amended (labels : List (List Char)) (probs : List ℚ) (θ : ℚ)
    (hlen : probs.length = labels.length) :
    List.Sublist (InferencePipeline.detectedEmotions labels probs θ) labels ∧
    ∀ l, l ∈ InferencePipeline.detectedEmotions labels probs θ ↔
      ∃ i, i < probs.length ∧ labels.getD i [] = l ∧ θ < probs.getD i 0 := by
  constructor
  · have h1 : List.Sublist (InferencePipeline.detectedEmotions labels probs θ)
        ((labels.zip probs).map Prod.fst) :=
      (List.filter_sublist _).map Prod.fst
    rwa [List.map_fst_zip labels probs (le_of_eq hlen.symm)] at h1
  · intro l
    constructor
    · intro h
      obtain ⟨⟨l0, p0⟩, hmem, hl⟩ := List.mem_map.mp h
      obtain ⟨hz, hp⟩ := List.mem_filter.mp hmem
      obtain ⟨i, hi, hget⟩ := List.mem_iff_getElem.mp hz
      have hi2 : i < probs.length := by simpa [List.length_zip, hlen] using hi
      have hi3 : i < labels.length := hlen ▸ hi2
      have hget2 : (labels[i], probs[i]) = (l0, p0) := by
        rw [← hget, List.getElem_zip]
      have h1 : labels[i] = l0 := congrArg Prod.fst hget2
      have h2 : probs[i] = p0 := congrArg Prod.snd hget2
      simp only at hl
      simp only [decide_eq_true_eq] at hp
      refine ⟨i, hi2, ?_, ?_⟩
      · rw [List.getD_eq_getElem labels [] hi3, h1, hl]
      · rw [List.getD_eq_getElem probs 0 hi2, h2]
        exact hp
    · rintro ⟨i, hi, hl, hθ⟩
      have hi2 : i < labels.length := hlen ▸ hi
      rw [List.getD_eq_getElem labels [] hi2] at hl
      rw [List.getD_eq_getElem probs 0 hi] at hθ
      refine List.mem_map.mpr ⟨(labels[i], probs[i]), List.mem_filter.mpr ⟨?_, ?_⟩, hl⟩
      · refine List.mem_iff_getElem.mpr ⟨i, ?_, ?_⟩
        · simp only [List.length_zip]
          omega
        · rw [List.getElem_zip]
      · simp only [decide_eq_true_eq]
        exact hθ

/-- C2 amended witness: the characterization applied to the five label
example score vector of the specification, scaled by one hundred. -/
theorem C2_detected_labels_amended_witness :
    List.Sublist (InferencePipeline.detectedEmotions
      [cs [106, 111, 121], cs [115, 97, 100, 110, 101, 115, 115]] [(85 : ℚ), 5] 50)
      [cs [106, 111, 121], cs [115, 97, 100, 110, 101, 115, 115]] :=
  (C2_detected_labels_amended
    [cs [106, 111, 121], cs [115, 97, 100, 110, 101, 115, 115]] [(85 : ℚ), 5] 50 rfl).1

/-! ### C9: stage order of the strict preprocessing pipeline -/

set_option maxHeartbeats 2000000 in
/-- C9 counterexample: the pipeline does not equal the composition in the
claimed order (cleaning, then special character mapping, then contraction
expansion, then spelling, then whitespace collapse).  On the input
I don acute-accent t know, with the external demojizer instantiated as the
identity (the input has no emoji), the pipeline expands the contraction and
yields i do not know, while the claimed order first maps the accent to an
apostrophe and spaces it out, yielding i don apostrophe t know. -/
theorem C9_stage_order_counterexample :
    PredictServer.text_preprocessing_pipeline (fun t => t)
      (cs [73, 32, 100, 111, 110, 180, 116, 32, 107, 110, 111, 119]) ≠
    PredictServer.claimedOrderPipeline (fun t => t)
      (cs [73, 32, 100, 111, 110, 180, 116, 32, 107, 110, 111, 119]) := by decide

/-- C9 amended: the pipeline applies its stages in exactly this order:
emoji, bracket, URL and tag stripping first, then contraction expansion,
then punctuation and special character mapping, then spelling correction,
then whitespace collapse. -/
theorem C9_stage_order_amended (demojize : List Char → List Char) (text : List Char) :
    PredictServer.text_preprocessing_pipeline demojize text =
      (PredictServer.remove_space ∘ PredictServer.correct_spelling ∘
        PredictServer.clean_special_chars ∘ PredictServer.clean_contractions)
        (PredictServer.clean_text demojize text) := by
  simp only [PredictServer.text_preprocessing_pipeline, Function.comp_apply]

/-! ### Supporting lemmas: maximum and stable argmax of a probability list -/

theorem inferCore_top_label (labels : List (List Char)) (probs : List ℚ) (θ : ℚ) :
    (InferencePipeline.inferCore labels probs θ).top_label =
      labels.getD (InferencePipeline.argmaxIdx probs) [] := rfl

theorem inferCore_confidence (labels : List (List Char)) (probs : List ℚ) (θ : ℚ) :
    (InferencePipeline.inferCore labels probs θ).confidence =
      probs.getD (InferencePipeline.argmaxIdx probs) 0 := rfl

theorem inferCore_scores (labels : List (List Char)) (probs : List ℚ) (θ : ℚ) :
    (InferencePipeline.inferCore labels probs θ).scores = labels.zip probs := rfl

theorem inferCore_all_emotions (labels : List (List Char)) (probs : List ℚ) (θ : ℚ) :
    (InferencePipeline.inferCore labels probs θ).all_emotions =
      if (InferencePipeline.detectedEmotions labels probs θ).isEmpty then
        [labels.getD (InferencePipeline.argmaxIdx probs) []]
      else InferencePipeline.detectedEmotions labels probs θ := rfl

theorem le_listMax {x : ℚ} {l : List ℚ} (h : x ∈ l) : x ≤ InferencePipeline.listMax l := by
  induction l with
  | nil => simp at h
  | cons y ys ih =>
    cases ys with
    | nil =>
      simp at h
      simp [InferencePipeline.listMax, h]
    | cons z zs =>
      rcases List.mem_cons.mp h with h1 | h2
      · simp [InferencePipeline.listMax, h1]
      · exact le_trans (ih h2) (by simp [InferencePipeline.listMax])

theorem argmaxIdx_lt_length {l : List ℚ} (h : l ≠ []) :
    InferencePipeline.argmaxIdx l < l.length := by
  induction l with
  | nil => exact absurd rfl h
  | cons y ys ih =>
    cases ys with
    | nil => simp [InferencePipeline.argmaxIdx]
    | cons z zs =>
      by_cases hc : y < InferencePipeline.listMax (z :: zs)
      · have h2 := ih (by simp)
        simp only [InferencePipeline.argmaxIdx, if_pos hc]
        simp only [List.length_cons] at h2 ⊢
        omega
      · simp [InferencePipeline.argmaxIdx, if_neg hc]

theorem getD_argmaxIdx_eq_listMax {l : List ℚ} (h : l ≠ []) :
    l.getD (InferencePipeline.argmaxIdx l) 0 = InferencePipeline.listMax l := by
  induction l with
  | nil => exact absurd rfl h
  | cons y ys ih =>
    cases ys with
    | nil => simp [InferencePipeline.argmaxIdx, InferencePipeline.listMax]
    | cons z zs =>
      by_cases hc : y < InferencePipeline.listMax (z :: zs)
      · simp only [InferencePipeline.argmaxIdx, if_pos hc, List.getD_cons_succ]
        rw [ih (by simp)]
        simp only [InferencePipeline.listMax]
        exact (max_eq_right (le_of_lt hc)).symm
      · simp only [InferencePipeline.argmaxIdx, if_neg hc, List.getD_cons_zero]
        simp only [InferencePipeline.listMax]
        exact (max_eq_left (not_lt.mp hc)).symm

theorem getD_lt_of_lt_argmaxIdx {l : List ℚ} {j : Nat}
    (hj : j < InferencePipeline.argmaxIdx l) :
    l.getD j 0 < InferencePipeline.listMax l := by
  induction l generalizing j with
  | nil => simp [InferencePipeline.argmaxIdx] at hj
  | cons y ys ih =>
    cases ys with
    | nil => simp [InferencePipeline.argmaxIdx] at hj
    | cons z zs =>
      by_cases hc : y < InferencePipeline.listMax (z :: zs)
      · rw [InferencePipeline.argmaxIdx, if_pos hc] at hj
        have hmax : InferencePipeline.listMax (y :: z :: zs) =
            InferencePipeline.listMax (z :: zs) := by
          simp only [InferencePipeline.listMax]
          exact max_eq_right (le_of_lt hc)
        cases j with
        | zero => simpa [hmax] using hc
        | succ j =>
          rw [List.getD_cons_succ, hmax]
          exact ih (Nat.lt_of_succ_lt_succ hj)
      · rw [InferencePipeline.argmaxIdx, if_neg hc] at hj
        exact absurd hj (Nat.not_lt_zero j)

theorem lookup_zip_getD : ∀ (labels : List (List Char)) (probs : List ℚ),
    labels.Nodup → ∀ i : Nat, i < labels.length → probs.length = labels.length →
    List.lookup (labels.getD i []) (labels.zip probs) = some (probs.getD i 0)
  | [], _, _, i, hi, _ => by simp at hi
  | _ :: _, [], _, _, _, hlen => by simp at hlen
  | a :: as, p :: ps, hnd, 0, _, _ => by simp [List.lookup]
  | a :: as, p :: ps, hnd, i + 1, hi, hlen => by
    have hi2 : i < as.length := Nat.lt_of_succ_lt_succ hi
    have hmem : as.getD i [] ∈ as := by
      rw [List.getD_eq_getElem as [] hi2]
      exact List.getElem_mem hi2
    have hne2 : (as.getD i [] == a) = false := by
      simp only [beq_eq_false_iff_ne, ne_eq]
      intro heq
      rw [heq] at hmem
      exact (List.nodup_cons.mp hnd).1 hmem
    simp only [List.getD_cons_succ, List.zip_cons_cons, List.lookup, hne2]
    exact lookup_zip_getD as ps (List.nodup_cons.mp hnd).2 i hi2 (by simpa using hlen)

theorem detectedEmotions_eq_nil_of_all_lt (labels : List (List Char)) (probs : List ℚ)
    (θ : ℚ) (hall : ∀ p ∈ probs, p < θ) :
    InferencePipeline.detectedEmotions labels probs θ = [] := by
  apply List.eq_nil_iff_forall_not_mem.mpr
  intro l hl
  obtain ⟨⟨l0, p0⟩, hmem, _⟩ := List.mem_map.mp hl
  obtain ⟨hz, hp⟩ := List.mem_filter.mp hmem
  have hp0 : p0 ∈ probs := (List.of_mem_zip hz).2
  simp only [decide_eq_true_eq] at hp
  exact absurd hp (not_lt.mpr (le_of_lt (hall p0 hp0)))

/-! ### C1: the emotion decision of infer -/

/-- C1: for every per label probability vector (with one score per declared
label, a non empty and duplicate free label list) the decision of infer
yields a top label at the stable argmax index (every score is at most the
top confidence and every score strictly before the argmax index is strictly
below it), a confidence equal to the score table entry of the top label,
and a non empty detected label list which equals exactly the singleton top
label when every score is below the threshold. -/
theorem C1_decision_policy (labels : List (List Char)) (probs : List ℚ) (θ : ℚ)
    (hlen : probs.length = labels.length) (hne : labels ≠ []) (hnd : labels.Nodup) :
    InferencePipeline.argmaxIdx probs < probs.length ∧
    (InferencePipeline.inferCore labels probs θ).top_label =
      labels.getD (InferencePipeline.argmaxIdx probs) [] ∧
    (∀ p ∈ probs, p ≤ (InferencePipeline.inferCore labels probs θ).confidence) ∧
    (∀ j, j < InferencePipeline.argmaxIdx probs →
      probs.getD j 0 < (InferencePipeline.inferCore labels probs θ).confidence) ∧
    (InferencePipeline.inferCore labels probs θ).confidence =
      probs.getD (InferencePipeline.argmaxIdx probs) 0 ∧
    List.lookup (InferencePipeline.inferCore labels probs θ).top_label
      (InferencePipeline.inferCore labels probs θ).scores =
      some (InferencePipeline.inferCore labels probs θ).confidence ∧
    (InferencePipeline.inferCore labels probs θ).all_emotions ≠ [] ∧
    ((∀ p ∈ probs, p < θ) →
      (InferencePipeline.inferCore labels probs θ).all_emotions =
        [(InferencePipeline.inferCore labels probs θ).top_label]) := by
  have hpne : probs ≠ [] := by
    intro h
    rw [h] at hlen
    exact hne (List.eq_nil_of_length_eq_zero hlen.symm)
  have hmax : probs.getD (InferencePipeline.argmaxIdx probs) 0 =
      InferencePipeline.listMax probs := getD_argmaxIdx_eq_listMax hpne
  have ham : InferencePipeline.argmaxIdx probs < probs.length :=
    argmaxIdx_lt_length hpne
  refine ⟨ham, rfl, ?_, ?_, rfl, ?_, ?_, ?_⟩
  · intro p hp
    rw [inferCore_confidence, hmax]
    exact le_listMax hp
  · intro j hj
    rw [inferCore_confidence, hmax]
    exact getD_lt_of_lt_argmaxIdx hj
  · rw [inferCore_top_label, inferCore_scores, inferCore_confidence]
    exact lookup_zip_getD labels probs hnd _ (hlen ▸ ham) hlen
  · rw [inferCore_all_emotions]
    by_cases hd : (InferencePipeline.detectedEmotions labels probs θ).isEmpty
    · rw [if_pos hd]
      simp
    · rw [if_neg hd]
      rw [Bool.not_eq_true, List.isEmpty_eq_false_iff_exists_mem] at hd
      obtain ⟨x, hx⟩ := hd
      exact List.ne_nil_of_mem hx
  · intro hall
    rw [inferCore_all_emotions, inferCore_top_label,
      detectedEmotions_eq_nil_of_all_lt labels probs θ hall]
    rfl

/-- C1 witness: the decision policy at the five label example of the
specification (scores scaled by one hundred): joy 85, sadness 5, anger 2,
fear 1, surprise 3 with threshold 50. -/
theorem C1_decision_policy_witness :
    (InferencePipeline.inferCore
      [cs [106, 111, 121], cs [115, 97, 100, 110, 101, 115, 115],
        cs [97, 110, 103, 101, 114], cs [102, 101, 97, 114],
        cs [115, 117, 114, 112, 114, 105, 115, 101]]
      [(85 : ℚ), 5, 2, 1, 3] 50).all_emotions ≠ [] :=
  (C1_decision_policy
    [cs [106, 111, 121], cs [115, 97, 100, 110, 101, 115, 115],
      cs [97, 110, 103, 101, 114], cs [102, 101, 97, 114],
      cs [115, 117, 114, 112, 114, 105, 115, 101]]
    [(85 : ℚ), 5, 2, 1, 3] 50 rfl (by decide) (by decide)).2.2.2.2.2.2.1

/-! ### C10: the top label always belongs to the detected list -/

/-- C10: for every probability vector with one score per declared label and
a non empty label list, the top label is a member of the returned detected
emotion list: if any score clears the strict threshold then the maximal
score does too, and otherwise the fallback makes the list the singleton top
label. -/
theorem C10_top_label_mem_all_emotions (labels : List (List Char)) (probs : List ℚ)
    (θ : ℚ) (hlen : probs.length = labels.length) (hne : labels ≠ []) :
    (InferencePipeline.inferCore labels probs θ).top_label ∈
      (InferencePipeline.inferCore labels probs θ).all_emotions := by
  have hpne : probs ≠ [] := by
    intro h
    rw [h] at hlen
    exact hne (List.eq_nil_of_length_eq_zero hlen.symm)
  have ham : InferencePipeline.argmaxIdx probs < probs.length := argmaxIdx_lt_length hpne
  have ham2 : InferencePipeline.argmaxIdx probs < labels.length := hlen ▸ ham
  rw [inferCore_all_emotions, inferCore_top_label]
  by_cases hd : (InferencePipeline.detectedEmotions labels probs θ).isEmpty
  · rw [if_pos hd]
    exact List.mem_singleton_self _
  · rw [if_neg hd]
    rw [Bool.not_eq_true, List.isEmpty_eq_false_iff_exists_mem] at hd
    obtain ⟨l1, hl1⟩ := hd
    obtain ⟨⟨l0, p0⟩, hmem, _⟩ := List.mem_map.mp hl1
    obtain ⟨hz, hp⟩ := List.mem_filter.mp hmem
    simp only [decide_eq_true_eq] at hp
    have hp0 : p0 ∈ probs := (List.of_mem_zip hz).2
    have hmaxgt : θ < probs.getD (InferencePipeline.argmaxIdx probs) 0 := by
      rw [getD_argmaxIdx_eq_listMax hpne]
      exact lt_of_lt_of_le hp (le_listMax hp0)
    apply List.mem_map.mpr
    refine ⟨(labels[InferencePipeline.argmaxIdx probs],
      probs[InferencePipeline.argmaxIdx probs]), List.mem_filter.mpr ⟨?_, ?_⟩, ?_⟩
    · refine List.mem_iff_getElem.mpr ⟨InferencePipeline.argmaxIdx probs, ?_, ?_⟩
      · simp only [List.length_zip]
        omega
      · rw [List.getElem_zip]
    · simp only [decide_eq_true_eq]
      rw [List.getD_eq_getElem probs 0 ham] at hmaxgt
      exact hmaxgt
    · exact (List.getD_eq_getElem labels [] ham2).symm

/-- C10 witness: the invariant at a two label example with a threshold that
no score clears. -/
theorem C10_top_label_mem_all_emotions_witness :
    (InferencePipeline.inferCore
      [cs [106, 111, 121], cs [115, 97, 100, 110, 101, 115, 115]]
      [(40 : ℚ), 5] 50).top_label ∈
    (InferencePipeline.inferCore
      [cs [106, 111, 121], cs [115, 97, 100, 110, 101, 115, 115]]
      [(40 : ℚ), 5] 50).all_emotions :=
  C10_top_label_mem_all_emotions
    [cs [106, 111, 121], cs [115, 97, 100, 110, 101, 115, 115]]
    [(40 : ℚ), 5] 50 rfl (by decide)

/-! ### C3: the crisis banner composition of full_pipeline -/

/-- C3: whenever the crisis check on the cleaned text returns true and the
check is enabled, the final response is exactly the crisis banner, a blank
line, then the generated response unchanged as a suffix; when the check
returns false, or when the check is disabled, the final response is the
generated response unchanged. -/
theorem C3_crisis_banner_prepended (labels : List (List Char))
    (classify : List Char → List ℚ)
    (gen : List Char → List (List Char) → Option (List Char) → List Char) (θ : ℚ)
    (text : List Char) (user_name : Option (List Char))
    (r : InferencePipeline.PipelineResult)
    (h : InferencePipeline.full_pipeline labels classify gen θ text user_name true = .ok r) :
    (InferencePipeline.check_crisis_keywords r.cleaned_text = true →
      r.final_response = CRISIS_BANNER ++ nlc :: nlc :: r.generated_response) ∧
    (InferencePipeline.check_crisis_keywords r.cleaned_text = false →
      r.final_response = r.generated_response) ∧
    r.crisis_detected = InferencePipeline.check_crisis_keywords r.cleaned_text ∧
    (∀ r2 : InferencePipeline.PipelineResult,
      InferencePipeline.full_pipeline labels classify gen θ text user_name false = .ok r2 →
      r2.final_response = r2.generated_response ∧ r2.crisis_detected = false) := by
  simp only [InferencePipeline.full_pipeline] at h ⊢
  cases hinf : InferencePipeline.infer labels classify θ (InferencePipeline.clean_text text) with
  | error e =>
    rw [hinf] at h
    simp at h
  | ok er =>
    rw [hinf] at h
    simp only [Except.ok.injEq] at h
    subst h
    refine ⟨?_, ?_, ?_, ?_⟩
    · intro hc
      simp [hc]
    · intro hc
      simp [hc]
    · simp
    · intro r2 h2
      simp only [Except.ok.injEq] at h2
      subst h2
      simp

/-- C3 witness: the banner composition on the crisis text i want to die,
with a one label classifier and a fixed generator. -/
theorem C3_crisis_banner_prepended_witness :
    ({ input_text := cs [105, 32, 119, 97, 110, 116, 32, 116, 111, 32, 100, 105, 101]
       cleaned_text := cs [105, 32, 119, 97, 110, 116, 32, 116, 111, 32, 100, 105, 101]
       emotion_results :=
         { top_label := cs [106, 111, 121]
           confidence := 85
           all_emotions := [cs [106, 111, 121]]
           scores := [(cs [106, 111, 121], 85)] }
       generated_response := cs [111, 107]
       crisis_detected := true
       final_response := CRISIS_BANNER ++ nlc :: nlc :: cs [111, 107] } :
      InferencePipeline.PipelineResult).final_response =
      CRISIS_BANNER ++ nlc :: nlc :: cs [111, 107] :=
  (C3_crisis_banner_prepended [cs [106, 111, 121]] (fun _ => [(85 : ℚ)])
    (fun _ _ _ => cs [111, 107]) 50
    (cs [105, 32, 119, 97, 110, 116, 32, 116, 111, 32, 100, 105, 101]) none
    { input_text := cs [105, 32, 119, 97, 110, 116, 32, 116, 111, 32, 100, 105, 101]
      cleaned_text := cs [105, 32, 119, 97, 110, 116, 32, 116, 111, 32, 100, 105, 101]
      emotion_results :=
        { top_label := cs [106, 111, 121]
          confidence := 85
          all_emotions := [cs [106, 111, 121]]
          scores := [(cs [106, 111, 121], 85)] }
      generated_response := cs [111, 107]
      crisis_detected := true
      final_response := CRISIS_BANNER ++ nlc :: nlc :: cs [111, 107] }
    (by rfl)).1 (by decide)

/-! ### C5: empty input is rejected before the classifier runs -/

/-- C5: for every input whose cleaned form is the empty string, infer fails
with the empty input error, and the result does not depend on the
classifier, which is therefore never consulted. -/
theorem C5_empty_input_rejected (labels : List (List Char)) (θ : ℚ) (text : List Char)
    (h : InferencePipeline.clean_text text = []) :
    ∀ classify classify2 : List Char → List ℚ,
      InferencePipeline.infer labels classify θ text = .error .emptyInput ∧
      InferencePipeline.infer labels classify θ text =
        InferencePipeline.infer labels classify2 θ text := by
  intro c1 c2
  unfold InferencePipeline.infer
  rw [h]
  simp

/-- C5 witness: a whitespace only input cleans to the empty string and is
rejected. -/
theorem C5_empty_input_rejected_witness :
    InferencePipeline.infer [] (fun _ => []) 0 (cs [32, 32, 32]) = .error .emptyInput :=
  (C5_empty_input_rejected [] 0 (cs [32, 32, 32]) (by decide)
    (fun _ => []) (fun _ => [])).1

/-! ### C8: batch inference isolates per item failures -/

theorem getD_append_cons {α : Type} (l1 : List α) (x : α) (l2 : List α) (d : α) :
    (l1 ++ x :: l2).getD l1.length d = x := by
  induction l1 with
  | nil => rfl
  | cons a as ih => simpa using ih

theorem map_getD_append {α β : Type} (f : α → β) (pre : List α) (t : α) (post : List α)
    (d : β) : ((pre ++ t :: post).map f).getD pre.length d = f t := by
  rw [List.map_append, List.map_cons]
  have h := getD_append_cons (pre.map f) (f t) (post.map f) d
  rw [List.length_map] at h
  exact h

/-- C8: batch_infer returns exactly one result per input in input order;
the batch splits as the concatenation of the batches of the parts, so one
item never influences another; a failing item yields an error record
carrying the original input text and the error message in its own slot,
while a succeeding item yields its pipeline result in its own slot. -/
theorem C8_batch_isolation (labels : List (List Char)) (classify : List Char → List ℚ)
    (gen : List Char → List (List Char) → Option (List Char) → List Char) (θ : ℚ) :
    (∀ texts, (InferencePipeline.batch_infer labels classify gen θ texts).length =
      texts.length) ∧
    (∀ pre t post,
      InferencePipeline.batch_infer labels classify gen θ (pre ++ t :: post) =
        InferencePipeline.batch_infer labels classify gen θ pre ++
          InferencePipeline.batch_infer labels classify gen θ [t] ++
          InferencePipeline.batch_infer labels classify gen θ post) ∧
    (∀ pre t post e,
      InferencePipeline.full_pipeline labels classify gen θ t none true = .error e →
      (InferencePipeline.batch_infer labels classify gen θ (pre ++ t :: post)).getD
        pre.length (.err [] []) = .err t (InferencePipeline.errString e)) ∧
    (∀ pre t post r,
      InferencePipeline.full_pipeline labels classify gen θ t none true = .ok r →
      (InferencePipeline.batch_infer labels classify gen θ (pre ++ t :: post)).getD
        pre.length (.err [] []) = .ok r) := by
  refine ⟨?_, ?_, ?_, ?_⟩
  · intro texts
    simp [InferencePipeline.batch_infer]
  · intro pre t post
    simp [InferencePipeline.batch_infer]
  · intro pre t post e he
    unfold InferencePipeline.batch_infer
    rw [map_getD_append]
    rw [he]
  · intro pre t post r hr
    unfold InferencePipeline.batch_infer
    rw [map_getD_append]
    rw [hr]

/-- C8 witness: a batch whose single item is empty yields exactly the error
record carrying the input text and the Python exception message. -/
theorem C8_batch_isolation_witness :
    (InferencePipeline.batch_infer [] (fun _ => []) (fun _ _ _ => []) 0
      ([] ++ cs [32] :: [])).getD 0 (.err [] []) =
      .err (cs [32]) (InferencePipeline.errString .emptyInput) :=
  (C8_batch_isolation [] (fun _ => []) (fun _ _ _ => []) 0).2.2.1
    [] (cs [32]) [] .emptyInput (by rfl)

/-! ### Supporting lemmas: split and join versus the specification scanner -/

theorem joinSpace_cons_cons (w w2 : List Char) (ws : List (List Char)) :
    joinSpace (w :: w2 :: ws) = w ++ sp :: joinSpace (w2 :: ws) := rfl

theorem wordsAux_cons_space_nil {c : Char} (hc : isPySpace c = true) (rest : List Char) :
    wordsAux (c :: rest) [] = wordsAux rest [] := by
  simp [wordsAux, hc]

theorem wordsAux_cons_space_cons {c : Char} (hc : isPySpace c = true) (rest : List Char)
    (c0 : Char) (cur : List Char) :
    wordsAux (c :: rest) (c0 :: cur) = (c0 :: cur).reverse :: wordsAux rest [] := by
  simp [wordsAux, hc]

theorem wordsAux_cons_nonspace {c : Char} (hc : isPySpace c = false) (rest cur : List Char) :
    wordsAux (c :: rest) cur = wordsAux rest (c :: cur) := by
  simp [wordsAux, hc]

theorem normSpecAux_space_start {c : Char} (hc : isPySpace c = true) (rest : List Char) :
    normSpecAux (c :: rest) WSState.start = normSpecAux rest WSState.start := by
  simp [normSpecAux, hc]

theorem normSpecAux_space_word {c : Char} (hc : isPySpace c = true) (rest : List Char) :
    normSpecAux (c :: rest) WSState.word = normSpecAux rest WSState.space := by
  simp [normSpecAux, hc]

theorem normSpecAux_space_space {c : Char} (hc : isPySpace c = true) (rest : List Char) :
    normSpecAux (c :: rest) WSState.space = normSpecAux rest WSState.space := by
  simp [normSpecAux, hc]

theorem normSpecAux_nonspace_start {c : Char} (hc : isPySpace c = false) (rest : List Char) :
    normSpecAux (c :: rest) WSState.start = c :: normSpecAux rest WSState.word := by
  simp [normSpecAux, hc]

theorem normSpecAux_nonspace_word {c : Char} (hc : isPySpace c = false) (rest : List Char) :
    normSpecAux (c :: rest) WSState.word = c :: normSpecAux rest WSState.word := by
  simp [normSpecAux, hc]

theorem normSpecAux_nonspace_space {c : Char} (hc : isPySpace c = false) (rest : List Char) :
    normSpecAux (c :: rest) WSState.space = sp :: c :: normSpecAux rest WSState.word := by
  simp [normSpecAux, hc]

theorem wordsAux_ne_nil (s : List Char) (c0 : Char) (cur : List Char) :
    wordsAux s (c0 :: cur) ≠ [] := by
  induction s generalizing c0 cur with
  | nil => simp [wordsAux]
  | cons c rest ih =>
    by_cases hc : isPySpace c
    · rw [wordsAux_cons_space_cons hc]
      simp
    · rw [wordsAux_cons_nonspace (by simpa using hc)]
      exact ih c (c0 :: cur)

theorem words_norm (s : List Char) :
    (∀ c0 cur, joinSpace (wordsAux s (c0 :: cur)) =
      (c0 :: cur).reverse ++ normSpecAux s WSState.word) ∧
    (wordsAux s [] = [] → normSpecAux s WSState.space = []) ∧
    (∀ w ws, wordsAux s [] = w :: ws →
      normSpecAux s WSState.space = sp :: joinSpace (w :: ws)) ∧
    joinSpace (wordsAux s []) = normSpecAux s WSState.start := by
  induction s with
  | nil =>
    refine ⟨fun c0 cur => ?_, fun _ => rfl, fun w ws h => ?_, rfl⟩
    · simp [wordsAux, joinSpace, normSpecAux]
    · simp [wordsAux] at h
  | cons c rest ih =>
    obtain ⟨ih1, ih2a, ih2b, ih3⟩ := ih
    by_cases hcb : isPySpace c
    · refine ⟨fun c0 cur => ?_, fun h => ?_, fun w ws h => ?_, ?_⟩
      · rw [wordsAux_cons_space_cons hcb, normSpecAux_space_word hcb]
        cases hw : wordsAux rest [] with
        | nil =>
          rw [ih2a hw]
          simp [joinSpace]
        | cons w ws =>
          rw [ih2b w ws hw, joinSpace_cons_cons]
      · rw [wordsAux_cons_space_nil hcb] at h
        rw [normSpecAux_space_space hcb]
        exact ih2a h
      · rw [wordsAux_cons_space_nil hcb] at h
        rw [normSpecAux_space_space hcb]
        exact ih2b w ws h
      · rw [wordsAux_cons_space_nil hcb, normSpecAux_space_start hcb]
        exact ih3
    · have hc : isPySpace c = false := by simpa using hcb
      refine ⟨fun c0 cur => ?_, fun h => ?_, fun w ws h => ?_, ?_⟩
      · rw [wordsAux_cons_nonspace hc, normSpecAux_nonspace_word hc, ih1 c (c0 :: cur)]
        simp
      · rw [wordsAux_cons_nonspace hc] at h
        exact absurd h (wordsAux_ne_nil rest c [])
      · rw [wordsAux_cons_nonspace hc] at h
        rw [normSpecAux_nonspace_space hc]
        have h1 := ih1 c []
        rw [h] at h1
        simp only [List.reverse_cons, List.reverse_nil, List.nil_append,
          List.singleton_append] at h1
        rw [← h1]
      · rw [wordsAux_cons_nonspace hc, normSpecAux_nonspace_start hc]
        have h1 := ih1 c []
        simp only [List.reverse_cons, List.reverse_nil, List.nil_append,
          List.singleton_append] at h1
        rw [h1]

theorem joinSpace_pyWords_eq_normSpec (s : List Char) :
    joinSpace (pyWords s) = normSpec s := (words_norm s).2.2.2

/-! ### C6: clean_text trims, collapses and truncates -/

/-- C6: clean_text equals the independent specification scanner normSpec
(trim leading and trailing whitespace, collapse every internal whitespace
run to a single space) followed by truncation to 10000 characters when the
collapsed result is longer, without any error; the result length is the
minimum of the collapsed length and 10000; and the quoted example collapses
to I am fine written with an apostrophe. -/
theorem C6_clean_text_normalizes :
    (∀ s, InferencePipeline.clean_text s =
      (if 10000 < (normSpec s).length then (normSpec s).take 10000 else normSpec s)) ∧
    (∀ s, (InferencePipeline.clean_text s).length = min (normSpec s).length 10000) ∧
    InferencePipeline.clean_text
      (cs [32, 32, 73, 39, 109, 32, 32, 32, 102, 105, 110, 101, 32, 32, 32]) =
      cs [73, 39, 109, 32, 102, 105, 110, 101] := by
  have hmain : ∀ s, InferencePipeline.clean_text s =
      (if 10000 < (normSpec s).length then (normSpec s).take 10000 else normSpec s) := by
    intro s
    simp only [InferencePipeline.clean_text]
    rw [joinSpace_pyWords_eq_normSpec s]
  refine ⟨hmain, fun s => ?_, by decide⟩
  rw [hmain s]
  by_cases h : 10000 < (normSpec s).length
  · rw [if_pos h, List.length_take]
    omega
  · rw [if_neg h]
    omega

/-! ### Supporting lemmas: the truncation counterexample input -/

theorem flatten_replicate_length (n : Nat) (l : List Char) :
    ((List.replicate n l).flatten).length = n * l.length := by
  induction n with
  | zero => simp
  | succ n ih =>
    rw [List.replicate_succ, List.flatten_cons, List.length_append, ih, Nat.succ_mul]
    omega

theorem pyWords_flatten_rep (n : Nat) :
    pyWords ((List.replicate n (cs [97, 32])).flatten) =
      List.replicate n [Char.ofNat 97] := by
  induction n with
  | zero => rfl
  | succ n ih =>
    show wordsAux _ [] = _
    rw [List.replicate_succ, List.flatten_cons]
    simp only [cs, List.map_cons, List.map_nil, List.cons_append, List.nil_append]
    rw [wordsAux_cons_nonspace (by decide), wordsAux_cons_space_cons (by decide)]
    simp only [List.reverse_cons, List.reverse_nil, List.nil_append]
    simp only [pyWords, cs, List.map_cons, List.map_nil] at ih
    rw [ih, List.replicate_succ]

theorem joinSpace_rep (n : Nat) :
    joinSpace (List.replicate (n + 1) [Char.ofNat 97]) =
      Char.ofNat 97 :: (List.replicate n (cs [32, 97])).flatten := by
  induction n with
  | zero => rfl
  | succ n ih =>
    have h2 : List.replicate (n + 1) [Char.ofNat 97] =
        [Char.ofNat 97] :: List.replicate n [Char.ofNat 97] := List.replicate_succ _ _
    rw [List.replicate_succ, h2, joinSpace_cons_cons, ← h2, ih, List.replicate_succ,
      List.flatten_cons]
    simp [cs, sp]

theorem take_flatten_rep (n : Nat) :
    ((List.replicate (n + 1) (cs [32, 97])).flatten).take (2 * n + 1) =
      (List.replicate n (cs [32, 97])).flatten ++ [Char.ofNat 32] := by
  rw [List.replicate_succ' n (cs [32, 97]), List.flatten_append]
  have hlen : ((List.replicate n (cs [32, 97])).flatten).length = 2 * n := by
    rw [flatten_replicate_length]
    simp only [cs, List.map_cons, List.map_nil, List.length_cons, List.length_nil]
    omega
  rw [show 2 * n + 1 = ((List.replicate n (cs [32, 97])).flatten).length + 1 by omega]
  rw [List.take_append 1]
  simp [cs]

theorem wordsAux_flatten_rep_sp (n : Nat) :
    wordsAux ((List.replicate n (cs [32, 97])).flatten ++ [Char.ofNat 32])
      [Char.ofNat 97] = List.replicate (n + 1) [Char.ofNat 97] := by
  induction n with
  | zero =>
    show wordsAux [Char.ofNat 32] [Char.ofNat 97] = _
    rw [wordsAux_cons_space_cons (by decide)]
    rfl
  | succ n ih =>
    rw [List.replicate_succ, List.flatten_cons]
    simp only [cs, List.map_cons, List.map_nil, List.cons_append, List.nil_append]
    rw [wordsAux_cons_space_cons (by decide), wordsAux_cons_nonspace (by decide)]
    simp only [List.reverse_cons, List.reverse_nil, List.nil_append]
    simp only [cs, List.map_cons, List.map_nil] at ih
    rw [ih]
    simp [List.replicate_succ]

theorem clean_text_rep_input :
    InferencePipeline.clean_text ((List.replicate 5001 (cs [97, 32])).flatten) =
      Char.ofNat 97 ::
        (((List.replicate 4999 (cs [32, 97])).flatten) ++ [Char.ofNat 32]) := by
  have hlen : (joinSpace (List.replicate 5001 [Char.ofNat 97])).length = 10001 := by
    rw [joinSpace_rep 5000, List.length_cons, flatten_replicate_length]
    simp only [cs, List.map_cons, List.map_nil, List.length_cons, List.length_nil]
  simp only [InferencePipeline.clean_text]
  rw [pyWords_flatten_rep 5001]
  rw [if_pos (by rw [hlen]; omega)]
  rw [joinSpace_rep 5000]
  rw [show (10000 : Nat) = 9999 + 1 from rfl, List.take_succ_cons]
  rw [show (9999 : Nat) = 2 * 4999 + 1 from rfl]
  rw [show (5000 : Nat) = 4999 + 1 from rfl]
  rw [take_flatten_rep 4999]

theorem clean_text_rep_first_length :
    (InferencePipeline.clean_text ((List.replicate 5001 (cs [97, 32])).flatten)).length =
      10000 := by
  rw [clean_text_rep_input, List.length_cons, List.length_append,
    flatten_replicate_length]
  simp only [cs, List.map_cons, List.map_nil, List.length_cons, List.length_nil]

theorem clean_text_rep_second_length :
    (InferencePipeline.clean_text (InferencePipeline.clean_text
      ((List.replicate 5001 (cs [97, 32])).flatten))).length = 9999 := by
  rw [clean_text_rep_input]
  have hpw : pyWords (Char.ofNat 97 ::
      (((List.replicate 4999 (cs [32, 97])).flatten) ++ [Char.ofNat 32])) =
      List.replicate 5000 [Char.ofNat 97] := by
    show wordsAux _ [] = _
    rw [wordsAux_cons_nonspace (by decide)]
    exact wordsAux_flatten_rep_sp 4999
  have hlen2 : (joinSpace (List.replicate 5000 [Char.ofNat 97])).length = 9999 := by
    rw [show (5000 : Nat) = 4999 + 1 from rfl, joinSpace_rep 4999, List.length_cons,
      flatten_replicate_length]
    simp only [cs, List.map_cons, List.map_nil, List.length_cons, List.length_nil]
  simp only [InferencePipeline.clean_text]
  rw [hpw]
  rw [if_neg (by rw [hlen2]; omega)]
  exact hlen2

/-! ### C7: idempotence of clean_text -/

/-- C7 counterexample: clean_text is not idempotent on every input.  On the
string of five thousand and one letters a separated by spaces, the collapsed
form has 10001 characters, truncation to 10000 leaves a trailing space, and
the second application strips that space, producing a 9999 character result
different from the first. -/
theorem C7_idempotence_counterexample :
    InferencePipeline.clean_text (InferencePipeline.clean_text
      ((List.replicate 5001 (cs [97, 32])).flatten)) ≠
      InferencePipeline.clean_text ((List.replicate 5001 (cs [97, 32])).flatten) := by
  intro hcon
  have h2 := clean_text_rep_second_length
  rw [hcon, clean_text_rep_first_length] at h2
  exact absurd h2 (by omega)

/-! ### Supporting lemmas: words are non empty and space free -/

theorem wordsAux_good (s : List Char) : ∀ (cur : List Char),
    (∀ c ∈ cur, isPySpace c = false) →
    ∀ w ∈ wordsAux s cur, w ≠ [] ∧ ∀ c ∈ w, isPySpace c = false := by
  induction s with
  | nil =>
    intro cur hcur w hw
    cases cur with
    | nil => simp [wordsAux] at hw
    | cons c0 cur =>
      simp [wordsAux] at hw
      subst hw
      refine ⟨by simp, fun c hc => ?_⟩
      rcases List.mem_append.mp hc with h1 | h2
      · exact hcur c (List.mem_cons_of_mem c0 (List.mem_reverse.mp h1))
      · have : c = c0 := by simpa using h2
        subst this
        exact hcur c (List.mem_cons_self c cur)
  | cons c rest ih =>
    intro cur hcur w hw
    by_cases hcb : isPySpace c
    · cases cur with
      | nil =>
        rw [wordsAux_cons_space_nil hcb] at hw
        exact ih [] (by simp) w hw
      | cons c0 cur =>
        rw [wordsAux_cons_space_cons hcb] at hw
        rcases List.mem_cons.mp hw with h1 | h2
        · subst h1
          refine ⟨by simp, fun d hd => hcur d ?_⟩
          exact List.mem_reverse.mp hd
        · exact ih [] (by simp) w h2
    · have hc : isPySpace c = false := by simpa using hcb
      rw [wordsAux_cons_nonspace hc] at hw
      refine ih (c :: cur) ?_ w hw
      intro d hd
      rcases List.mem_cons.mp hd with h1 | h2
      · subst h1
        exact hc
      · exact hcur d h2

theorem wordsAux_append_word : ∀ (w s cur : List Char),
    (∀ c ∈ w, isPySpace c = false) →
    wordsAux (w ++ s) cur = wordsAux s (w.reverse ++ cur)
  | [], s, cur, _ => by simp
  | c :: w2, s, cur, hw => by
    rw [List.cons_append, wordsAux_cons_nonspace (hw c (List.mem_cons_self c w2))]
    rw [wordsAux_append_word w2 s (c :: cur) (fun d hd => hw d (List.mem_cons_of_mem c hd))]
    simp

theorem pyWords_joinSpace (ws : List (List Char))
    (hg : ∀ w ∈ ws, w ≠ [] ∧ ∀ c ∈ w, isPySpace c = false) :
    pyWords (joinSpace ws) = ws := by
  induction ws with
  | nil => rfl
  | cons w ws2 ih =>
    obtain ⟨hne, hgood⟩ := hg w (List.mem_cons_self w ws2)
    cases ws2 with
    | nil =>
      show wordsAux (joinSpace [w]) [] = [w]
      have hj : joinSpace [w] = w := rfl
      rw [hj]
      have h2 := wordsAux_append_word w [] [] hgood
      rw [List.append_nil] at h2
      rw [h2]
      simp [wordsAux, hne]
    | cons w2 ws3 =>
      have hg2 : ∀ v ∈ w2 :: ws3, v ≠ [] ∧ ∀ c ∈ v, isPySpace c = false :=
        fun v hv => hg v (List.mem_cons_of_mem w hv)
      show wordsAux (joinSpace (w :: w2 :: ws3)) [] = _
      rw [joinSpace_cons_cons]
      rw [wordsAux_append_word w (sp :: joinSpace (w2 :: ws3)) [] hgood]
      rw [List.append_nil]
      cases hr : w.reverse with
      | nil => exact absurd (List.reverse_eq_nil_iff.mp hr) hne
      | cons r0 rt =>
        rw [wordsAux_cons_space_cons (by decide)]
        rw [← hr, List.reverse_reverse]
        have ih2 := ih hg2
        simp only [pyWords] at ih2
        rw [ih2]

/-- C7 amended: clean_text is idempotent on every input whose collapsed
form does not exceed the 10000 character cap, that is whenever no
truncation occurs (truncation can leave a trailing space that the second
application removes, as the counterexample shows). -/
theorem C7_idempotent_amended (s : List Char) (h : (normSpec s).length ≤ 10000) :
    InferencePipeline.clean_text (InferencePipeline.clean_text s) =
      InferencePipeline.clean_text s := by
  have hcol := joinSpace_pyWords_eq_normSpec s
  have hlen : (joinSpace (pyWords s)).length ≤ 10000 := by
    rw [hcol]
    exact h
  have h1 : InferencePipeline.clean_text s = joinSpace (pyWords s) := by
    simp only [InferencePipeline.clean_text]
    rw [if_neg (by omega)]
  have hgood := wordsAux_good s [] (by simp)
  have h2 : pyWords (joinSpace (pyWords s)) = pyWords s := pyWords_joinSpace _ hgood
  rw [h1]
  simp only [InferencePipeline.clean_text]
  rw [h2]
  rw [if_neg (by omega)]

/-- C7 amended witness: idempotence on a short input with internal and
trailing whitespace. -/
theorem C7_idempotent_amended_witness :
    InferencePipeline.clean_text (InferencePipeline.clean_text
      (cs [97, 32, 32, 98, 32])) =
      InferencePipeline.clean_text (cs [97, 32, 32, 98, 32]) :=
  C7_idempotent_amended (cs [97, 32, 32, 98, 32]) (by decide)

end Apricity
